import Mathlib

/-!
Verification of the StudentCredentials web application core logic.

The repository is a Next.js front end over Firebase (Firestore document
store, Firebase binary storage, Firebase auth).  This file gives a shallow
embedding of its domain logic:

* the access-grant state machine (a company requests access to student
  certificates; the student approves / denies / revokes), from
  src/app/dashboard/company/page.tsx (onSendRequest),
  src/app/dashboard/student/requests/page.tsx (handleRequestResponse,
  handleRevokeAccess);
* the read paths that present grants and certificates, from
  src/app/dashboard/company/page.tsx (onSelectStudent),
  src/app/dashboard/company/requests/page.tsx (fetchRequests) and
  src/app/dashboard/student/requests/page.tsx (fetchRequests);
* certificate issuance with SHA-256 content digest, from
  src/app/dashboard/school/upload/page.tsx (generateFileHash, onSubmit);
* student enrollment, from the school enroll page (onSubmit).

Modelling conventions, used throughout:

* Firestore document ids are generated by the store; they are modelled by a
  counter nextDocId in the database state (addDoc appends a record carrying
  the counter value and bumps the counter).
* ISO-8601 timestamp strings (new Date().toISOString()) compare like the
  instants they denote, so timestamps are modelled as Nat.
* uuidv4() is an external generator; each call site takes the generated
  value as an explicit String argument, and the generator contract (fresh,
  never-repeating values) appears as a distinctness hypothesis where a
  claim needs it.
* crypto.subtle.digest with algorithm SHA-256 is the FIPS 180-4 SHA-256
  function; it is implemented concretely below on byte lists.
* getDownloadURL of the storage SDK is modelled as a fixed injective
  function of the storage path.
-/

namespace StudentCredentials

/-! Section: SHA-256 (model of crypto.subtle.digest with algorithm SHA-256)

Bytes are Nat values below 256; words are Nat values below 2 ^ 32.
-/

/-- Truncate to a 32-bit word. -/
def w32 (n : Nat) : Nat := n % 2 ^ 32

/-- Right rotation of a 32-bit word. -/
def rotr32 (n x : Nat) : Nat := w32 (x >>> n ||| x <<< (32 - n))

/-- Bitwise complement of a 32-bit word. -/
def not32 (x : Nat) : Nat := x ^^^ 4294967295

/-- The SHA-256 choice function. -/
def ch (e f g : Nat) : Nat := (e &&& f) ^^^ (not32 e &&& g)

/-- The SHA-256 majority function. -/
def maj (a b c : Nat) : Nat := (a &&& b) ^^^ (a &&& c) ^^^ (b &&& c)

/-- The SHA-256 big sigma-0 function. -/
def bigSigma0 (x : Nat) : Nat := rotr32 2 x ^^^ rotr32 13 x ^^^ rotr32 22 x

/-- The SHA-256 big sigma-1 function. -/
def bigSigma1 (x : Nat) : Nat := rotr32 6 x ^^^ rotr32 11 x ^^^ rotr32 25 x

/-- The SHA-256 small sigma-0 function. -/
def smallSigma0 (x : Nat) : Nat := rotr32 7 x ^^^ rotr32 18 x ^^^ (x >>> 3)

/-- The SHA-256 small sigma-1 function. -/
def smallSigma1 (x : Nat) : Nat := rotr32 17 x ^^^ rotr32 19 x ^^^ (x >>> 10)

/-- The 64 SHA-256 round constants of FIPS 180-4, written in decimal. -/
def sha256K : List Nat :=
  [1116352408, 1899447441, 3049323471, 3921009573, 961987163,
   1508970993, 2453635748, 2870763221, 3624381080, 310598401,
   607225278, 1426881987, 1925078388, 2162078206, 2614888103,
   3248222580, 3835390401, 4022224774, 264347078, 604807628,
   770255983, 1249150122, 1555081692, 1996064986, 2554220882,
   2821834349, 2952996808, 3210313671, 3336571891, 3584528711,
   113926993, 338241895, 666307205, 773529912, 1294757372,
   1396182291, 1695183700, 1986661051, 2177026350, 2456956037,
   2730485921, 2820302411, 3259730800, 3345764771, 3516065817,
   3600352804, 4094571909, 275423344, 430227734, 506948616,
   659060556, 883997877, 958139571, 1322822218, 1537002063,
   1747873779, 1955562222, 2024104815, 2227730452, 2361852424,
   2428436474, 2756734187, 3204031479, 3329325298]

/-- The eight SHA-256 initial hash words of FIPS 180-4, in decimal. -/
def sha256H0 : List Nat :=
  [1779033703, 3144134277, 1013904242, 2773480762,
   1359893119, 2600822924, 528734635, 1541459225]

/-- The eight big-endian bytes of a 64-bit length value. -/
def beBytes8 (n : Nat) : List Nat :=
  [n >>> 56 % 256, n >>> 48 % 256, n >>> 40 % 256, n >>> 32 % 256,
   n >>> 24 % 256, n >>> 16 % 256, n >>> 8 % 256, n % 256]

/-- SHA-256 padding: append 0x80, zero bytes, and the 64-bit bit length,
reaching a multiple of 64 bytes. -/
def padMessage (msg : List Nat) : List Nat :=
  msg ++ [0x80] ++ List.replicate ((55 + 64 - msg.length % 64) % 64) 0 ++ beBytes8 (8 * msg.length)

/-- Big-endian 32-bit words from a byte list. -/
def toWords : List Nat → List Nat
  | a :: b :: c :: d :: rest => (((a * 256 + b) * 256 + c) * 256 + d) :: toWords rest
  | _ => []

/-- One extension step of the SHA-256 message schedule. -/
def scheduleStep (w : List Nat) : List Nat :=
  let i := w.length
  w ++ [w32 (smallSigma1 (w.getD (i - 2) 0) + w.getD (i - 7) 0 +
             smallSigma0 (w.getD (i - 15) 0) + w.getD (i - 16) 0)]

/-- The 64-word SHA-256 message schedule of a 16-word block. -/
def schedule (block : List Nat) : List Nat := scheduleStep^[48] block

/-- One SHA-256 compression round on the working state [a,b,c,d,e,f,g,h]. -/
def sha256Round (st : List Nat) (kw : Nat × Nat) : List Nat :=
  match st with
  | [a, b, c, d, e, f, g, h] =>
    let t1 := w32 (h + bigSigma1 e + ch e f g + kw.1 + kw.2)
    let t2 := w32 (bigSigma0 a + maj a b c)
    [w32 (t1 + t2), a, b, c, w32 (d + t1), e, f, g]
  | other => other

/-- Compress one 16-word block into the running hash value. -/
def compressBlock (h : List Nat) (block : List Nat) : List Nat :=
  let st := (sha256K.zip (schedule block)).foldl sha256Round h
  (h.zip st).map (fun p => w32 (p.1 + p.2))

/-- Split a byte list into 64-byte chunks. -/
def chunk64 (l : List Nat) : List (List Nat) :=
  if l.length = 0 then [] else l.take 64 :: chunk64 (l.drop 64)
termination_by l.length
decreasing_by simp only [List.length_drop]; omega

/-- The eight 32-bit words of the SHA-256 digest of a byte list. -/
def sha256Words (msg : List Nat) : List Nat :=
  (chunk64 (padMessage msg)).foldl (fun h b => compressBlock h (toWords b)) sha256H0

/-- The four big-endian bytes of a 32-bit word. -/
def wordBytes (w : Nat) : List Nat := [w >>> 24 % 256, w >>> 16 % 256, w >>> 8 % 256, w % 256]

/-- The 32 digest bytes of SHA-256, as produced by the Uint8Array view over
the digest buffer in generateFileHash. -/
def sha256Bytes (msg : List Nat) : List Nat := ((sha256Words msg).map wordBytes).flatten

/-- Two lowercase hex characters for one byte.  For b below 256 this equals
the JavaScript expression b.toString(16).padStart(2, the zero digit). -/
def hexByte (b : Nat) : List Char := [Nat.digitChar (b / 16), Nat.digitChar (b % 16)]

/-- generateFileHash from src/app/dashboard/school/upload/page.tsx lines
57-63: SHA-256 over the exact input bytes, rendered as lowercase hex. -/
def generateFileHash (bytes : List Nat) : String :=
  String.mk (((sha256Bytes bytes).map hexByte).flatten)

/-! Section: Data model

Firestore collections: users, students, certificates, accessRequests, plus
the binary object store.  Document ids are modelled as a Nat counter.
-/

/-- The four statuses an accessRequests document takes anywhere in the
code: created as pending (company page line 208), set to approved or
denied (student requests page line 98), or to revoked (line 124). -/
inductive GrantStatus
  | pending
  | approved
  | denied
  | revoked
deriving DecidableEq, Repr

/-- A users-collection document, as read by onSendRequest (company page
lines 193-201) to resolve the company display name. -/
structure UserDoc where
  email : String
  companyName : String
deriving DecidableEq, Repr

/-- A students-collection document, as written by the school enroll page
(fields at its onSubmit addDoc call). -/
structure StudentRecord where
  id : Nat
  name : String
  email : String
  studentId : String
  program : String
  enrollmentYear : String
  schoolId : String
  createdAt : Nat
deriving DecidableEq, Repr

/-- A certificates-collection document, with the fields written by
onSubmit in src/app/dashboard/school/upload/page.tsx lines 144-157. -/
structure Certificate where
  id : Nat
  name : String
  issueDate : String
  uploadDate : Nat
  fileURL : String
  fileName : String
  fileType : String
  fileSize : Nat
  fileHash : String
  schoolId : String
  studentId : Nat
  studentName : String
  studentEmail : String
deriving DecidableEq, Repr

/-- An accessRequests-collection document, with the fields written by
onSendRequest in src/app/dashboard/company/page.tsx lines 199-209 plus the
optional fields added by the student response handlers. -/
structure AccessGrant where
  id : Nat
  companyId : String
  companyName : String
  companyEmail : String
  studentId : Nat
  studentName : String
  studentEmail : String
  message : String
  requestDate : Nat
  responseDate : Option Nat
  revokedDate : Option Nat
  status : GrantStatus
deriving DecidableEq, Repr

/-- The persistent state: the Firestore collections, the binary object
store (path to bytes), and the document-id counter. -/
structure DB where
  users : List UserDoc
  students : List StudentRecord
  certificates : List Certificate
  grants : List AccessGrant
  storage : List (String × List Nat)
  nextDocId : Nat
deriving DecidableEq, Repr

/-- An uploaded file as seen by the upload form handler. -/
structure UploadFile where
  bytes : List Nat
  name : String
  type : String
  size : Nat
deriving DecidableEq, Repr

/-! Section: Operations (write paths) -/

/-- The duplicate-request pre-check query of onSendRequest (company page
lines 174-180): accessRequests where companyId, studentId match and status
equals pending. -/
def pendingGrantsFor (db : DB) (companyId : String) (studentDocId : Nat) : List AccessGrant :=
  db.grants.filter fun g =>
    g.companyId == companyId && g.studentId == studentDocId && g.status == GrantStatus.pending

/-- The company-name lookup of onSendRequest (company page lines 193-201):
first users document with the company email; a missing document or an
empty name falls back to the fixed label, as the JavaScript or-expression
does. -/
def companyNameFor (db : DB) (email : String) : String :=
  match db.users.find? (fun u => u.email == email) with
  | some u => if u.companyName == "" then "Unknown Company" else u.companyName
  | none => "Unknown Company"

/-- Result reported to the caller by onSendRequest. -/
inductive SendRequestResult
  | created
  | refusedPending
deriving DecidableEq, Repr

/-- onSendRequest from src/app/dashboard/company/page.tsx lines 167-232:
if the pending-grant pre-check finds a document, refuse and change
nothing; otherwise create one accessRequests document with status pending
and requestDate now. -/
def onSendRequest (db : DB) (companyId companyEmail : String) (studentDocId : Nat)
    (studentName studentEmail message : String) (now : Nat) : DB × SendRequestResult :=
  if (pendingGrantsFor db companyId studentDocId).isEmpty then
    let g : AccessGrant :=
      { id := db.nextDocId
        companyId := companyId
        companyName := companyNameFor db companyEmail
        companyEmail := companyEmail
        studentId := studentDocId
        studentName := studentName
        studentEmail := studentEmail
        message := message
        requestDate := now
        responseDate := none
        revokedDate := none
        status := GrantStatus.pending }
    ({ db with grants := db.grants ++ [g], nextDocId := db.nextDocId + 1 }, SendRequestResult.created)
  else (db, SendRequestResult.refusedPending)

/-- updateDoc on the accessRequests collection: rewrite the document with
the given id through f, leaving every other document alone. -/
def updateGrant (db : DB) (gid : Nat) (f : AccessGrant → AccessGrant) : DB :=
  { db with grants := db.grants.map fun g => if g.id == gid then f g else g }

/-- The status argument of handleRequestResponse, typed in the source as
the union of the two literals approved and denied. -/
inductive ResponseChoice
  | approve
  | deny
deriving DecidableEq, Repr

/-- The grant status written for each response choice. -/
def respStatus : ResponseChoice → GrantStatus
  | ResponseChoice.approve => GrantStatus.approved
  | ResponseChoice.deny => GrantStatus.denied

/-- handleRequestResponse from src/app/dashboard/student/requests/page.tsx
lines 95-119: one updateDoc writing the chosen status and responseDate. -/
def handleRequestResponse (db : DB) (requestId : Nat) (choice : ResponseChoice) (now : Nat) : DB :=
  updateGrant db requestId fun g =>
    { g with status := respStatus choice, responseDate := some now }

/-- handleRevokeAccess from src/app/dashboard/student/requests/page.tsx
lines 121-145: one updateDoc writing status revoked and revokedDate. -/
def handleRevokeAccess (db : DB) (requestId : Nat) (now : Nat) : DB :=
  updateGrant db requestId fun g =>
    { g with status := GrantStatus.revoked, revokedDate := some now }

/-- onSubmit of the school enroll page: one addDoc into students. -/
def enrollStudent (db : DB) (schoolUid name email studentId program enrollmentYear : String)
    (now : Nat) : DB :=
  let s : StudentRecord :=
    { id := db.nextDocId
      name := name
      email := email
      studentId := studentId
      program := program
      enrollmentYear := enrollmentYear
      schoolId := schoolUid
      createdAt := now }
  { db with students := db.students ++ [s], nextDocId := db.nextDocId + 1 }

/-- The char-level model of the JavaScript file.name.split evaluated at
the dot separator followed by pop: the last dot-separated component. -/
def fileExtension (name : String) : String :=
  String.mk (((List.splitOnP (fun c => c == '.') name.data).getLast?).getD [])

/-- The storage path template of upload onSubmit line 126:
certificates slash school uid slash student doc id slash uuid dot
extension. -/
def storagePath (schoolUid : String) (studentDocId : Nat) (uuid : String) (ext : String) : String :=
  "certificates/" ++ schoolUid ++ "/" ++ toString studentDocId ++ "/" ++ uuid ++ "." ++ ext

/-- Model of the storage SDK getDownloadURL: a fixed URL prefix applied to
the storage path. -/
def getDownloadURL (path : String) : String :=
  "https://firebasestorage.example/" ++ path

/-- Which remote call of upload onSubmit fails, if any.  The handler runs,
in source order: uploadBytes, getDownloadURL, the student lookup, addDoc;
a failure anywhere aborts the rest and is caught at lines 166-168. -/
inductive UploadOutcome
  | ok
  | storageFailed
  | recordWriteFailed
deriving DecidableEq, Repr

/-- onSubmit from src/app/dashboard/school/upload/page.tsx lines 118-172:
compute the storage path from school uid, student doc id and the uuidv4
value; hash the original file bytes; upload the bytes; then look up the
selected student and create one certificates document with the resulting
URL and digest.  If the upload call fails nothing is persisted; if the
student lookup throws or addDoc fails, the uploaded bytes stay in storage
while no document is created. -/
def onSubmitUpload (db : DB) (schoolUid : String) (studentDocId : Nat)
    (certificateName issueDate : String) (file : UploadFile) (uuid : String) (now : Nat) :
    UploadOutcome → DB
  | UploadOutcome.storageFailed => db
  | UploadOutcome.recordWriteFailed =>
    let path := storagePath schoolUid studentDocId uuid (fileExtension file.name)
    { db with storage := db.storage ++ [(path, file.bytes)] }
  | UploadOutcome.ok =>
    let path := storagePath schoolUid studentDocId uuid (fileExtension file.name)
    let fileHash := generateFileHash file.bytes
    let downloadURL := getDownloadURL path
    match db.students.find? (fun s => s.id == studentDocId) with
    | none => { db with storage := db.storage ++ [(path, file.bytes)] }
    | some student =>
      let cert : Certificate :=
        { id := db.nextDocId
          name := certificateName
          issueDate := issueDate
          uploadDate := now
          fileURL := downloadURL
          fileName := file.name
          fileType := file.type
          fileSize := file.size
          fileHash := fileHash
          schoolId := schoolUid
          studentId := studentDocId
          studentName := student.name
          studentEmail := student.email }
      { db with storage := db.storage ++ [(path, file.bytes)],
                certificates := db.certificates ++ [cert],
                nextDocId := db.nextDocId + 1 }

/-- The certificates document written by upload onSubmit (lines 144-157),
with the document id the store assigns. -/
def issuedCert (docId : Nat) (schoolUid : String) (studentDocId : Nat)
    (certificateName issueDate : String) (file : UploadFile) (uuid : String) (now : Nat)
    (st : StudentRecord) : Certificate :=
  { id := docId
    name := certificateName
    issueDate := issueDate
    uploadDate := now
    fileURL := getDownloadURL (storagePath schoolUid studentDocId uuid (fileExtension file.name))
    fileName := file.name
    fileType := file.type
    fileSize := file.size
    fileHash := generateFileHash file.bytes
    schoolId := schoolUid
    studentId := studentDocId
    studentName := st.name
    studentEmail := st.email }

/-! Section: Read paths -/

/-- statusPriority from src/app/dashboard/student/requests/page.tsx line
71: pending 0, approved 1, denied and revoked 2.  The fallback value 3 of
the source is unreachable because status is one of the four literals. -/
def statusPriority : GrantStatus → Nat
  | GrantStatus.pending => 0
  | GrantStatus.approved => 1
  | GrantStatus.denied => 2
  | GrantStatus.revoked => 2

/-- The sort comparator of the student requests page (lines 69-80):
priority difference, or descending requestDate within a priority tier. -/
def studentComparator (a b : AccessGrant) : Int :=
  if statusPriority a.status ≠ statusPriority b.status then
    (statusPriority a.status : Int) - (statusPriority b.status : Int)
  else (b.requestDate : Int) - (a.requestDate : Int)

/-- The sort comparator of the company requests page (lines 64-70):
pending before everything, approved before the rest, then descending
requestDate. -/
def companyComparator (a b : AccessGrant) : Int :=
  if a.status = GrantStatus.pending ∧ b.status ≠ GrantStatus.pending then -1
  else if a.status ≠ GrantStatus.pending ∧ b.status = GrantStatus.pending then 1
  else if a.status = GrantStatus.approved ∧ b.status ≠ GrantStatus.approved then -1
  else if a.status ≠ GrantStatus.approved ∧ b.status = GrantStatus.approved then 1
  else (b.requestDate : Int) - (a.requestDate : Int)

/-- fetchRequests of the student requests page (lines 56-82): the grants
of the student, sorted by the student comparator. -/
def studentFetchRequests (db : DB) (studentDocId : Nat) : List AccessGrant :=
  (db.grants.filter (fun g => g.studentId == studentDocId)).mergeSort
    (fun a b => studentComparator a b ≤ 0)

/-- fetchRequests of the company requests page (lines 52-72): the grants
created by the company, sorted by the company comparator. -/
def companyFetchRequests (db : DB) (companyId : String) : List AccessGrant :=
  (db.grants.filter (fun g => g.companyId == companyId)).mergeSort
    (fun a b => companyComparator a b ≤ 0)

/-- The certificates query used by every certificate read path:
certificates where studentId matches. -/
def certificatesForStudent (db : DB) (studentDocId : Nat) : List Certificate :=
  db.certificates.filter (fun c => c.studentId == studentDocId)

/-- onSelectStudent from src/app/dashboard/company/page.tsx lines 129-160:
the company dashboard search flow fetches the certificates of the selected student
directly, with no access-grant condition in the query or
around it. -/
def onSelectStudent (db : DB) (studentDocId : Nat) : List Certificate :=
  certificatesForStudent db studentDocId

/-- The certificate-loading loop of the company requests page (lines
74-93): certificates are fetched for a student exactly when one of the
requests of the company for that student has status approved. -/
def companyRequestsVisibleCerts (db : DB) (companyId : String) (studentDocId : Nat) :
    List Certificate :=
  if (companyFetchRequests db companyId).any
      (fun g => g.studentId == studentDocId && g.status == GrantStatus.approved) then
    certificatesForStudent db studentDocId
  else []

/-! Section: User-triggered operations with failure outcomes

Each handler is a user-triggered, run-to-completion interaction.  The
respond and revoke buttons are rendered only for requests whose status is
pending (student requests page line 278) respectively approved (line
296), so the dispatched operation carries that guard.  A remote-call
failure is caught at the call site; for the single-write handlers it
leaves the store untouched, while the upload handler is decomposed as
onSubmitUpload describes.
-/

/-- Whether the single Firestore write of a handler succeeds. -/
inductive WriteOutcome
  | ok
  | fail
deriving DecidableEq, Repr

/-- The user-triggered write operations of the application. -/
inductive Op
  | enroll (schoolUid name email studentId program enrollmentYear : String)
      (now : Nat) (out : WriteOutcome)
  | upload (schoolUid : String) (studentDocId : Nat) (certificateName issueDate : String)
      (file : UploadFile) (uuid : String) (now : Nat) (out : UploadOutcome)
  | sendRequest (companyId companyEmail : String) (studentDocId : Nat)
      (studentName studentEmail message : String) (now : Nat) (out : WriteOutcome)
  | respond (requestId : Nat) (choice : ResponseChoice) (now : Nat) (out : WriteOutcome)
  | revoke (requestId : Nat) (now : Nat) (out : WriteOutcome)

/-- First accessRequests document with the given id, as the local
component state addressed by a request id resolves it. -/
def findGrant (db : DB) (gid : Nat) : Option AccessGrant :=
  db.grants.find? (fun g => g.id == gid)

/-- One user-triggered operation against the persistent state. -/
def runOp (db : DB) : Op → DB
  | Op.enroll schoolUid name email studentId program enrollmentYear now out =>
    match out with
    | WriteOutcome.fail => db
    | WriteOutcome.ok => enrollStudent db schoolUid name email studentId program enrollmentYear now
  | Op.upload schoolUid studentDocId certificateName issueDate file uuid now out =>
    onSubmitUpload db schoolUid studentDocId certificateName issueDate file uuid now out
  | Op.sendRequest companyId companyEmail studentDocId studentName studentEmail message now out =>
    match out with
    | WriteOutcome.fail => db
    | WriteOutcome.ok =>
      (onSendRequest db companyId companyEmail studentDocId studentName studentEmail message now).1
  | Op.respond requestId choice now out =>
    match out with
    | WriteOutcome.fail => db
    | WriteOutcome.ok =>
      match findGrant db requestId with
      | some g =>
        if g.status == GrantStatus.pending then handleRequestResponse db requestId choice now
        else db
      | none => db
  | Op.revoke requestId now out =>
    match out with
    | WriteOutcome.fail => db
    | WriteOutcome.ok =>
      match findGrant db requestId with
      | some g =>
        if g.status == GrantStatus.approved then handleRevokeAccess db requestId now
        else db
      | none => db

/-! Section: Derived predicates used by the claims -/

/-- Whether the operation ends in a caught remote-call failure: the failed
single write of the enroll, request, respond and revoke handlers, or a
failure of the storage upload or of the record write inside the upload
handler. -/
def opFailed : Op → Bool
  | Op.enroll _ _ _ _ _ _ _ WriteOutcome.fail => true
  | Op.upload _ _ _ _ _ _ _ UploadOutcome.storageFailed => true
  | Op.upload _ _ _ _ _ _ _ UploadOutcome.recordWriteFailed => true
  | Op.sendRequest _ _ _ _ _ _ _ WriteOutcome.fail => true
  | Op.respond _ _ _ WriteOutcome.fail => true
  | Op.revoke _ _ WriteOutcome.fail => true
  | _ => false

/-- An approved grant for the exact company and student pair exists. -/
def hasApprovedGrant (db : DB) (companyId : String) (studentDocId : Nat) : Bool :=
  db.grants.any fun g =>
    g.companyId == companyId && g.studentId == studentDocId && g.status == GrantStatus.approved

/-- The status transitions of the access-grant state machine named by the
specification: stay put, pending to approved, pending to denied, approved
to revoked. -/
def allowedStatusStep (s t : GrantStatus) : Bool :=
  s == t ||
  (s == GrantStatus.pending && (t == GrantStatus.approved || t == GrantStatus.denied)) ||
  (s == GrantStatus.approved && t == GrantStatus.revoked)

/-- Well-formedness of stored document ids: grant ids are pairwise
distinct and below the id counter.  This is what the
document store and its globally unique generated ids provide, restated for the counter model. -/
def GoodIds (db : DB) : Prop :=
  (db.grants.map (fun g => g.id)).Nodup ∧ ∀ g ∈ db.grants, g.id < db.nextDocId

/-- The display order the specification states for grant listings: lower
priority tier first, and within one tier the more recent requestDate
first. -/
def displayOrder (a b : AccessGrant) : Prop :=
  statusPriority a.status < statusPriority b.status ∨
  (statusPriority a.status = statusPriority b.status ∧ b.requestDate ≤ a.requestDate)

/-- The sixteen lowercase hexadecimal characters. -/
def hexChars : List Char := "0123456789abcdef".data

/-! Section: Concrete sample records, used to instantiate the claims -/

/-- A sample enrolled student with document id 1. -/
def sampleStudent : StudentRecord :=
  { id := 1
    name := "Stu Dent"
    email := "stu@example.com"
    studentId := "S1"
    program := "CS"
    enrollmentYear := "2022"
    schoolId := "school1"
    createdAt := 0 }

/-- A sample certificate of the sample student. -/
def sampleCert : Certificate :=
  { id := 0
    name := "Degree"
    issueDate := "2024-06-01"
    uploadDate := 10
    fileURL := "u"
    fileName := "degree.pdf"
    fileType := "application/pdf"
    fileSize := 3
    fileHash := "h"
    schoolId := "school1"
    studentId := 1
    studentName := "Stu Dent"
    studentEmail := "stu@example.com" }

/-- A sample pending access request of company comp1 for the sample
student. -/
def baseGrant : AccessGrant :=
  { id := 2
    companyId := "comp1"
    companyName := "Comp"
    companyEmail := "hr@comp.com"
    studentId := 1
    studentName := "Stu Dent"
    studentEmail := "stu@example.com"
    message := ""
    requestDate := 5
    responseDate := none
    revokedDate := none
    status := GrantStatus.pending }

/-- A sample uploaded file. -/
def sampleFile : UploadFile :=
  { bytes := [1, 2, 3], name := "cert.pdf", type := "application/pdf", size := 3 }

/-- A store with the sample student and certificate and no grants. -/
def dbNoGrants : DB :=
  { users := []
    students := [sampleStudent]
    certificates := [sampleCert]
    grants := []
    storage := []
    nextDocId := 10 }

/-- The same store with one pending grant for (comp1, student 1). -/
def dbPending : DB := { dbNoGrants with grants := [baseGrant] }

/-- The sample grant, approved, under document id 3. -/
def approvedGrant : AccessGrant := { baseGrant with id := 3, status := GrantStatus.approved }

/-- The sample pending grant after the student approves it at time 9. -/
def respondedGrant : AccessGrant :=
  { baseGrant with status := respStatus ResponseChoice.approve, responseDate := some 9 }

/-- The same store with one approved grant for (comp1, student 1). -/
def dbApproved : DB := { dbNoGrants with grants := [approvedGrant] }

/-- The same store with an approved, a denied and a revoked grant for
(comp1, student 1) and no pending one. -/
def dbNonPending : DB :=
  { dbNoGrants with grants :=
      [{ baseGrant with id := 3, status := GrantStatus.approved },
       { baseGrant with id := 4, status := GrantStatus.denied },
       { baseGrant with id := 5, status := GrantStatus.revoked }] }

/-! Section: Helper lemmas -/

lemma studentComparator_nonpos (a b : AccessGrant) :
    studentComparator a b ≤ 0 ↔ displayOrder a b := by
  unfold studentComparator displayOrder
  split <;> omega

lemma companyComparator_nonpos (a b : AccessGrant) :
    companyComparator a b ≤ 0 ↔ displayOrder a b := by
  rcases a with ⟨ia, ca, na, ea, sa, sna, sea, ma, ra, pa, va, sta⟩
  rcases b with ⟨ib, cb, nb, eb, sb, snb, seb, mb, rb, pb, vb, stb⟩
  cases sta <;> cases stb <;>
    simp [companyComparator, displayOrder, statusPriority]

lemma displayOrder_trans {a b c : AccessGrant} (h1 : displayOrder a b)
    (h2 : displayOrder b c) : displayOrder a c := by
  unfold displayOrder at h1 h2 ⊢; omega

lemma displayOrder_total (a b : AccessGrant) : displayOrder a b ∨ displayOrder b a := by
  unfold displayOrder; omega

lemma pairwise_mergeSort_display (cmp : AccessGrant → AccessGrant → Int)
    (hiff : ∀ a b, cmp a b ≤ 0 ↔ displayOrder a b) (l : List AccessGrant) :
    (l.mergeSort (fun a b => cmp a b ≤ 0)).Pairwise displayOrder := by
  have h := @List.sorted_mergeSort AccessGrant (fun a b => decide (cmp a b ≤ 0))
    (fun a b c hab hbc => by
      simp only [decide_eq_true_eq] at hab hbc ⊢
      exact (hiff a c).mpr (displayOrder_trans ((hiff a b).mp hab) ((hiff b c).mp hbc)))
    (fun a b => by
      simp only [Bool.or_eq_true, decide_eq_true_eq]
      rcases displayOrder_total a b with h | h
      · exact Or.inl ((hiff a b).mpr h)
      · exact Or.inr ((hiff b a).mpr h)) l
  exact h.imp (fun hab => (hiff _ _).mp (by simpa using hab))

lemma pendingGrantsFor_isEmpty (db : DB) (c : String) (sid : Nat) :
    (pendingGrantsFor db c sid).isEmpty = true ↔
      ∀ g ∈ db.grants, ¬(g.companyId = c ∧ g.studentId = sid ∧
        g.status = GrantStatus.pending) := by
  simp [pendingGrantsFor, List.isEmpty_iff, List.filter_eq_nil_iff]

lemma findGrant_mem {db : DB} {gid : Nat} {g : AccessGrant} (h : findGrant db gid = some g) :
    g ∈ db.grants ∧ g.id = gid := by
  unfold findGrant at h
  refine ⟨List.mem_of_find?_eq_some h, ?_⟩
  have h2 := List.find?_some h
  simpa using h2

lemma grant_eq_of_id_eq {l : List AccessGrant} (hN : (l.map (fun g => g.id)).Nodup)
    {g g' : AccessGrant} (hg : g ∈ l) (hg' : g' ∈ l) (h : g.id = g'.id) : g = g' :=
  List.inj_on_of_nodup_map hN hg hg' h

lemma allowed_self (s : GrantStatus) : allowedStatusStep s s = true := by
  cases s <;> rfl

lemma claim2_conj2_frame {db : DB} (hN : (db.grants.map (fun g => g.id)).Nodup) :
    ∀ g ∈ db.grants, ∀ g' ∈ db.grants, g'.id = g.id →
      allowedStatusStep g.status g'.status = true := by
  intro g hg g' hg' h
  rw [grant_eq_of_id_eq hN hg' hg h]
  exact allowed_self _

lemma claim2_conj3_frame {l : List AccessGrant} :
    ∀ g' ∈ l, (∀ g ∈ l, g.id ≠ g'.id) → g'.status = GrantStatus.pending :=
  fun g' hg' h => (h g' hg' rfl).elim

lemma update_id_eq (f : AccessGrant → AccessGrant) (hfid : ∀ x, (f x).id = x.id)
    (rid : Nat) (x : AccessGrant) :
    ((if x.id == rid then f x else x).id) = x.id := by
  split
  · exact hfid x
  · rfl

lemma claim2_conj2_update {db : DB} {rid : Nat}
    (hN : (db.grants.map (fun g => g.id)).Nodup) {gf : AccessGrant}
    (hf : findGrant db rid = some gf) (f : AccessGrant → AccessGrant)
    (hfid : ∀ x, (f x).id = x.id)
    (hallow : allowedStatusStep gf.status (f gf).status = true) :
    ∀ g ∈ db.grants, ∀ g' ∈ (db.grants.map fun x => if x.id == rid then f x else x),
      g'.id = g.id → allowedStatusStep g.status g'.status = true := by
  intro g hg g' hg' hid'
  rcases List.mem_map.mp hg' with ⟨h0, h0mem, heq⟩
  have hgid : g'.id = h0.id := by
    rw [← heq]
    exact update_id_eq f hfid rid h0
  have hg0 : h0 = g := grant_eq_of_id_eq hN h0mem hg (by rw [← hgid, hid'])
  rw [hg0] at heq
  by_cases hc : g.id = rid
  · have hgf : g = gf := by
      rcases findGrant_mem hf with ⟨hmemf, hidf⟩
      exact grant_eq_of_id_eq hN hg hmemf (by rw [hc, hidf])
    have hg' : g' = f g := by rw [← heq, if_pos (by simpa using hc)]
    rw [hg', hgf]
    exact hallow
  · have hg' : g' = g := by rw [← heq, if_neg (by simpa using hc)]
    rw [hg']
    exact allowed_self _

lemma claim2_conj3_update {db : DB} {rid : Nat} (f : AccessGrant → AccessGrant)
    (hfid : ∀ x, (f x).id = x.id) :
    ∀ g' ∈ (db.grants.map fun x => if x.id == rid then f x else x),
      (∀ g ∈ db.grants, g.id ≠ g'.id) → g'.status = GrantStatus.pending := by
  intro g' hg' h
  rcases List.mem_map.mp hg' with ⟨h0, h0mem, heq⟩
  have hgid : g'.id = h0.id := by
    rw [← heq]
    exact update_id_eq f hfid rid h0
  exact absurd hgid.symm (h h0 h0mem)

lemma claim2_conj2_append {db : DB} (hN : (db.grants.map (fun g => g.id)).Nodup)
    (hLT : ∀ g ∈ db.grants, g.id < db.nextDocId) {new : AccessGrant}
    (hid : new.id = db.nextDocId) :
    ∀ g ∈ db.grants, ∀ g' ∈ db.grants ++ [new], g'.id = g.id →
      allowedStatusStep g.status g'.status = true := by
  intro g hg g' hg' h
  rcases List.mem_append.mp hg' with hin | hnew
  · rw [grant_eq_of_id_eq hN hin hg h]
    exact allowed_self _
  · rw [List.mem_singleton.mp hnew] at h
    rw [hid] at h
    exact absurd (h ▸ hLT g hg) (Nat.lt_irrefl _)

lemma claim2_conj3_append {db : DB} {new : AccessGrant}
    (hst : new.status = GrantStatus.pending) :
    ∀ g' ∈ db.grants ++ [new], (∀ g ∈ db.grants, g.id ≠ g'.id) →
      g'.status = GrantStatus.pending := by
  intro g' hg' h
  rcases List.mem_append.mp hg' with hin | hnew
  · exact (h g' hin rfl).elim
  · rw [List.mem_singleton.mp hnew]
    exact hst

lemma onSendRequest_shape (db : DB) (c ce : String) (sid : Nat) (sn se msg : String)
    (now : Nat) :
    (onSendRequest db c ce sid sn se msg now).1.grants = db.grants ∨
    ∃ new, new.id = db.nextDocId ∧ new.status = GrantStatus.pending ∧
      (onSendRequest db c ce sid sn se msg now).1.grants = db.grants ++ [new] := by
  unfold onSendRequest
  split
  · right
    exact ⟨_, rfl, rfl, rfl⟩
  · left
    rfl

/-! Section: Claims -/

/-- C9: on both grant-listing read paths (student requests page, company
requests page) the presented list is a permutation of the fetched grants
in which pending grants come first, then approved ones, then denied or
revoked ones, and within each priority tier the more recent requestDate
comes first. -/
theorem claim9_display_order (db : DB) (sid : Nat) (cid : String) :
    (studentFetchRequests db sid).Perm (db.grants.filter (fun g => g.studentId == sid)) ∧
    (studentFetchRequests db sid).Pairwise displayOrder ∧
    (companyFetchRequests db cid).Perm (db.grants.filter (fun g => g.companyId == cid)) ∧
    (companyFetchRequests db cid).Pairwise displayOrder := by
  unfold studentFetchRequests companyFetchRequests
  exact ⟨List.mergeSort_perm _ _,
    pairwise_mergeSort_display studentComparator studentComparator_nonpos _,
    List.mergeSort_perm _ _,
    pairwise_mergeSort_display companyComparator companyComparator_nonpos _⟩

/-- C3: the company submission path first queries grants of the pair with
status pending; if one exists no record is created and the caller is told
of the refusal, otherwise exactly one new grant is created, with status
pending and requestDate now. -/
theorem claim3_duplicate_guard (db : DB) (c ce : String) (sid : Nat) (sn se msg : String)
    (now : Nat) :
    ((∃ g ∈ db.grants, g.companyId = c ∧ g.studentId = sid ∧
        g.status = GrantStatus.pending) →
      onSendRequest db c ce sid sn se msg now = (db, SendRequestResult.refusedPending)) ∧
    ((¬ ∃ g ∈ db.grants, g.companyId = c ∧ g.studentId = sid ∧
        g.status = GrantStatus.pending) →
      onSendRequest db c ce sid sn se msg now =
        ({ db with
            grants := db.grants ++
              [{ id := db.nextDocId, companyId := c, companyName := companyNameFor db ce,
                 companyEmail := ce, studentId := sid, studentName := sn, studentEmail := se,
                 message := msg, requestDate := now, responseDate := none, revokedDate := none,
                 status := GrantStatus.pending }],
            nextDocId := db.nextDocId + 1 }, SendRequestResult.created)) := by
  constructor
  · intro h
    have hne : (pendingGrantsFor db c sid).isEmpty = false := by
      rcases Bool.eq_false_or_eq_true (pendingGrantsFor db c sid).isEmpty with ht | hf
      · rcases h with ⟨g, hg, hprop⟩
        exact absurd hprop ((pendingGrantsFor_isEmpty db c sid).mp ht g hg)
      · exact hf
    unfold onSendRequest
    rw [hne]
    simp
  · intro h
    have ht : (pendingGrantsFor db c sid).isEmpty = true :=
      (pendingGrantsFor_isEmpty db c sid).mpr (fun g hg hp => h ⟨g, hg, hp⟩)
    unfold onSendRequest
    rw [ht]
    simp

/-- Witness for C3: in the store with a pending grant of comp1 for student
1, a second submission by comp1 refuses and changes nothing. -/
theorem claim3_witness :
    onSendRequest dbPending "comp1" "hr@comp.com" 1 "Stu Dent" "stu@example.com" "" 20 =
      (dbPending, SendRequestResult.refusedPending) :=
  (claim3_duplicate_guard dbPending "comp1" "hr@comp.com" 1 "Stu Dent" "stu@example.com" ""
    20).1 (by decide)

/-- C10: the duplicate guard filters on status pending only, so whenever no
pending grant for the pair exists a new pending grant is created, even
while approved, denied or revoked grants for the same pair already
exist. -/
theorem claim10_pending_only_guard (db : DB) (c ce : String) (sid : Nat) (sn se msg : String)
    (now : Nat)
    (h : ∀ g ∈ db.grants, g.companyId = c → g.studentId = sid →
      g.status ≠ GrantStatus.pending) :
    (onSendRequest db c ce sid sn se msg now).2 = SendRequestResult.created ∧
    (onSendRequest db c ce sid sn se msg now).1.grants =
      db.grants ++
        [{ id := db.nextDocId, companyId := c, companyName := companyNameFor db ce,
           companyEmail := ce, studentId := sid, studentName := sn, studentEmail := se,
           message := msg, requestDate := now, responseDate := none, revokedDate := none,
           status := GrantStatus.pending }] := by
  have ht : (pendingGrantsFor db c sid).isEmpty = true :=
    (pendingGrantsFor_isEmpty db c sid).mpr
      (fun g hg hp => h g hg hp.1 hp.2.1 hp.2.2)
  unfold onSendRequest
  rw [ht]
  simp

/-- Witness for C10: with an approved, a denied and a revoked grant of
comp1 for student 1 and no pending one, submission creates a fourth,
pending grant for the same pair. -/
theorem claim10_witness :
    (onSendRequest dbNonPending "comp1" "hr@comp.com" 1 "Stu Dent" "stu@example.com" ""
      20).2 = SendRequestResult.created ∧
    (onSendRequest dbNonPending "comp1" "hr@comp.com" 1 "Stu Dent" "stu@example.com" ""
      20).1.grants =
      dbNonPending.grants ++
        [{ id := dbNonPending.nextDocId, companyId := "comp1",
           companyName := companyNameFor dbNonPending "hr@comp.com",
           companyEmail := "hr@comp.com", studentId := 1, studentName := "Stu Dent",
           studentEmail := "stu@example.com", message := "", requestDate := 20,
           responseDate := none, revokedDate := none, status := GrantStatus.pending }] :=
  claim10_pending_only_guard dbNonPending "comp1" "hr@comp.com" 1 "Stu Dent" "stu@example.com"
    "" 20 (by decide)

/-- C6: responding to a pending request writes the chosen status (approve
gives approved, deny gives denied) and responseDate now on that one
grant, keeps its every other field, keeps every other grant, and touches
no other collection. -/
theorem claim6_respond (db : DB) (rid : Nat) (choice : ResponseChoice) (now : Nat)
    (g : AccessGrant) (hf : findGrant db rid = some g)
    (hp : g.status = GrantStatus.pending) :
    (∀ h ∈ db.grants, h.id = rid →
      { h with status := respStatus choice, responseDate := some now } ∈
        (runOp db (Op.respond rid choice now WriteOutcome.ok)).grants) ∧
    (∀ h ∈ db.grants, h.id ≠ rid →
      h ∈ (runOp db (Op.respond rid choice now WriteOutcome.ok)).grants) ∧
    (runOp db (Op.respond rid choice now WriteOutcome.ok)).grants.length =
      db.grants.length ∧
    (runOp db (Op.respond rid choice now WriteOutcome.ok)).certificates =
      db.certificates ∧
    (runOp db (Op.respond rid choice now WriteOutcome.ok)).students = db.students ∧
    (runOp db (Op.respond rid choice now WriteOutcome.ok)).storage = db.storage ∧
    respStatus ResponseChoice.approve = GrantStatus.approved ∧
    respStatus ResponseChoice.deny = GrantStatus.denied := by
  have hrun : runOp db (Op.respond rid choice now WriteOutcome.ok) =
      handleRequestResponse db rid choice now := by
    simp only [runOp, hf, hp]
    simp
  rw [hrun]
  unfold handleRequestResponse updateGrant
  refine ⟨?_, ?_, by simp, rfl, rfl, rfl, rfl, rfl⟩
  · intro h hmem hid
    have heq : (fun x =>
        if x.id == rid then { x with status := respStatus choice, responseDate := some now }
        else x) h = { h with status := respStatus choice, responseDate := some now } := by
      simp [hid]
    exact heq ▸ List.mem_map_of_mem _ hmem
  · intro h hmem hid
    have heq : (fun x =>
        if x.id == rid then { x with status := respStatus choice, responseDate := some now }
        else x) h = h := by
      simp [hid]
    exact heq ▸ List.mem_map_of_mem _ hmem

/-- Witness for C6: approving the sample pending request stores it as
approved with responseDate 9 and all other fields kept. -/
theorem claim6_witness :
    { baseGrant with status := respStatus ResponseChoice.approve, responseDate := some 9 } ∈
      (runOp dbPending (Op.respond 2 ResponseChoice.approve 9 WriteOutcome.ok)).grants :=
  (claim6_respond dbPending 2 ResponseChoice.approve 9 baseGrant (by decide) (by decide)).1
    baseGrant (by decide) (by decide)

/-- C4 as stated is false: after revoking the only approved grant of comp1
for student 1, the company dashboard search path still returns the
certificates of the student, so visibility is not removed for all reads
available to a company. -/
theorem claim4_counterexample :
    (∀ g ∈ (runOp dbApproved (Op.revoke 3 30 WriteOutcome.ok)).grants,
      g.status = GrantStatus.revoked) ∧
    hasApprovedGrant (runOp dbApproved (Op.revoke 3 30 WriteOutcome.ok)) "comp1" 1 = false ∧
    onSelectStudent (runOp dbApproved (Op.revoke 3 30 WriteOutcome.ok)) 1 = [sampleCert] := by
  refine ⟨?_, by decide, by decide⟩
  decide

/-- C4 amended: revoking an approved grant sets its status to revoked and
its revokedDate to now while keeping its other fields, leaves every
Certificate record unchanged, and removes, for the pair, the certificate
visibility on the grant-gated company requests read path (when that grant
is the only approved one of the pair); the company dashboard search path is
unaffected, since it never consulted grants. -/
theorem claim4_revoke_amended (db : DB) (rid now : Nat) (g : AccessGrant)
    (hf : findGrant db rid = some g) (ha : g.status = GrantStatus.approved)
    (huniq : ∀ g' ∈ db.grants, g'.companyId = g.companyId → g'.studentId = g.studentId →
      g'.status = GrantStatus.approved → g'.id = rid) :
    (∀ g' ∈ (runOp db (Op.revoke rid now WriteOutcome.ok)).grants, g'.id = rid →
      g'.status = GrantStatus.revoked ∧ g'.revokedDate = some now ∧
      ∃ h ∈ db.grants,
        g' = { h with status := GrantStatus.revoked, revokedDate := some now }) ∧
    (runOp db (Op.revoke rid now WriteOutcome.ok)).certificates = db.certificates ∧
    companyRequestsVisibleCerts (runOp db (Op.revoke rid now WriteOutcome.ok)) g.companyId
      g.studentId = [] ∧
    onSelectStudent (runOp db (Op.revoke rid now WriteOutcome.ok)) g.studentId =
      onSelectStudent db g.studentId := by
  have hrun : runOp db (Op.revoke rid now WriteOutcome.ok) = handleRevokeAccess db rid now := by
    simp only [runOp, hf, ha]
    simp
  rw [hrun]
  unfold handleRevokeAccess updateGrant
  refine ⟨?_, rfl, ?_, by simp [onSelectStudent, certificatesForStudent]⟩
  · intro g' hg' hid
    rcases List.mem_map.mp hg' with ⟨h, hmem, heq⟩
    by_cases hcase : h.id = rid
    · rw [if_pos (by simpa using hcase)] at heq
      exact ⟨by rw [← heq], by rw [← heq], h, hmem, heq.symm⟩
    · rw [if_neg (by simpa using hcase)] at heq
      exact absurd (heq ▸ hid) hcase
  · have hcond : ((companyFetchRequests
        { db with grants := db.grants.map fun x =>
            if x.id == rid then { x with status := GrantStatus.revoked, revokedDate := some now }
            else x } g.companyId).any
          (fun x => x.studentId == g.studentId && x.status == GrantStatus.approved)) = false := by
      rw [Bool.eq_false_iff]
      intro hany
      rcases List.any_eq_true.mp hany with ⟨x, hx, hpx⟩
      unfold companyFetchRequests at hx
      rw [List.Perm.mem_iff (List.mergeSort_perm _ _)] at hx
      rcases List.mem_filter.mp hx with ⟨hxg, hxc⟩
      rcases List.mem_map.mp hxg with ⟨h, hmem, heq⟩
      simp only [Bool.and_eq_true, beq_iff_eq] at hpx hxc
      by_cases hcase : h.id = rid
      · rw [if_pos (by simpa using hcase)] at heq
        have : x.status = GrantStatus.revoked := by rw [← heq]
        rw [hpx.2] at this
        exact absurd this (by decide)
      · rw [if_neg (by simpa using hcase)] at heq
        rw [← heq] at hxc hpx
        exact hcase (huniq h hmem hxc hpx.1 hpx.2)
    simp only [companyRequestsVisibleCerts]
    rw [hcond]
    simp

/-- Witness for the amended C4 at the sample store: revoking the approved
grant stores it as revoked with revokedDate 30 and empties the company
requests view for the pair. -/
theorem claim4_witness :
    ((runOp dbApproved (Op.revoke 3 30 WriteOutcome.ok)).certificates =
      dbApproved.certificates) ∧
    companyRequestsVisibleCerts (runOp dbApproved (Op.revoke 3 30 WriteOutcome.ok)) "comp1" 1 =
      [] :=
  ⟨(claim4_revoke_amended dbApproved 3 30 approvedGrant
      (by decide) (by decide) (by decide)).2.1,
   (claim4_revoke_amended dbApproved 3 30 approvedGrant
      (by decide) (by decide) (by decide)).2.2.1⟩

/-- C1 as stated is false: in the store with no AccessGrant at all, the
company dashboard search path (onSelectStudent) returns the list of student 1
certificate list even though no approved grant for any pair exists. -/
theorem claim1_counterexample :
    dbNoGrants.grants = [] ∧
    hasApprovedGrant dbNoGrants "comp1" 1 = false ∧
    onSelectStudent dbNoGrants 1 = [sampleCert] := by
  decide

/-- C1 amended: on the grant-gated company requests read path a company
sees the certificate list of a student exactly when an approved AccessGrant
for that (companyId, studentId) pair exists; the company dashboard search
path, however, returns the certificate list of any selected student with no
grant check at all. -/
theorem claim1_visibility_amended (db : DB) (cid : String) (sid : Nat) :
    (companyRequestsVisibleCerts db cid sid =
      if hasApprovedGrant db cid sid = true then certificatesForStudent db sid else []) ∧
    onSelectStudent db sid = certificatesForStudent db sid := by
  refine ⟨?_, rfl⟩
  have key : ((companyFetchRequests db cid).any
      (fun g => g.studentId == sid && g.status == GrantStatus.approved)) = true ↔
      hasApprovedGrant db cid sid = true := by
    unfold companyFetchRequests hasApprovedGrant
    rw [List.any_eq_true, List.any_eq_true]
    constructor
    · rintro ⟨x, hx, hpx⟩
      rw [List.Perm.mem_iff (List.mergeSort_perm _ _)] at hx
      rcases List.mem_filter.mp hx with ⟨hxg, hxc⟩
      simp only [Bool.and_eq_true, beq_iff_eq] at hpx hxc ⊢
      exact ⟨x, hxg, by tauto⟩
    · rintro ⟨x, hx, hpx⟩
      simp only [Bool.and_eq_true, beq_iff_eq] at hpx ⊢
      have h1 : x.companyId = cid := by tauto
      refine ⟨x, ?_, by tauto⟩
      rw [List.Perm.mem_iff (List.mergeSort_perm _ _)]
      exact List.mem_filter.mpr ⟨hx, by simp [h1]⟩
  by_cases h : hasApprovedGrant db cid sid = true
  · have hc : ((companyFetchRequests db cid).any
        (fun g => g.studentId == sid && g.status == GrantStatus.approved)) = true := key.mpr h
    simp [companyRequestsVisibleCerts, hc, h]
  · have hc : ((companyFetchRequests db cid).any
        (fun g => g.studentId == sid && g.status == GrantStatus.approved)) = false := by
      rw [Bool.eq_false_iff]
      exact fun hcc => h (key.mp hcc)
    have h' : hasApprovedGrant db cid sid = false := by
      rw [Bool.eq_false_iff]
      exact h
    simp [companyRequestsVisibleCerts, hc, h']

/-- C2: under well-formed stored ids, every grant reachable by one
user-triggered operation has one of the four statuses; an operation moves
a stored grant only along the transitions pending to approved, pending to
denied, approved to revoked (or leaves its status unchanged); and every
newly created grant starts pending. -/
theorem claim2_transitions (db : DB) (op : Op) (hgood : GoodIds db) :
    (∀ g' ∈ (runOp db op).grants,
      g'.status = GrantStatus.pending ∨ g'.status = GrantStatus.approved ∨
      g'.status = GrantStatus.denied ∨ g'.status = GrantStatus.revoked) ∧
    (∀ g ∈ db.grants, ∀ g' ∈ (runOp db op).grants, g'.id = g.id →
      allowedStatusStep g.status g'.status = true) ∧
    (∀ g' ∈ (runOp db op).grants, (∀ g ∈ db.grants, g.id ≠ g'.id) →
      g'.status = GrantStatus.pending) := by
  obtain ⟨hN, hLT⟩ := hgood
  have frame : ∀ (l : List AccessGrant), l = db.grants →
      ((∀ g ∈ db.grants, ∀ g' ∈ l, g'.id = g.id →
          allowedStatusStep g.status g'.status = true) ∧
       (∀ g' ∈ l, (∀ g ∈ db.grants, g.id ≠ g'.id) →
          g'.status = GrantStatus.pending)) := by
    rintro l rfl
    exact ⟨claim2_conj2_frame hN, claim2_conj3_frame⟩
  refine ⟨fun g' _ => by cases g'.status <;> simp, ?_⟩
  cases op with
  | enroll a b c d e f now out =>
    cases out with
    | fail => exact frame _ (by simp [runOp])
    | ok => exact frame _ (by simp [runOp, enrollStudent])
  | upload a sid cn idate file uuid now out =>
    cases out with
    | storageFailed => exact frame _ (by simp [runOp, onSubmitUpload])
    | recordWriteFailed => exact frame _ (by simp [runOp, onSubmitUpload])
    | ok =>
      rcases hfs : db.students.find? (fun s => s.id == sid) with _ | st
      · exact frame _ (by simp [runOp, onSubmitUpload, hfs])
      · exact frame _ (by simp [runOp, onSubmitUpload, hfs])
  | sendRequest c ce sid sn se msg now out =>
    cases out with
    | fail => exact frame _ (by simp [runOp])
    | ok =>
      rcases onSendRequest_shape db c ce sid sn se msg now with hsame | ⟨new, hid1, hst1, happ⟩
      · exact frame _ (by simp only [runOp]; exact hsame)
      · have hsh : (runOp db (Op.sendRequest c ce sid sn se msg now WriteOutcome.ok)).grants =
            db.grants ++ [new] := by
          simp only [runOp]
          exact happ
        refine ⟨?_, ?_⟩ <;> rw [hsh]
        · exact claim2_conj2_append hN hLT hid1
        · exact claim2_conj3_append hst1
  | respond rid choice now out =>
    cases out with
    | fail => exact frame _ (by simp [runOp])
    | ok =>
      rcases hfg : findGrant db rid with _ | gf
      · exact frame _ (by simp [runOp, hfg])
      · by_cases hc : gf.status = GrantStatus.pending
        · have hrun : runOp db (Op.respond rid choice now WriteOutcome.ok) =
              handleRequestResponse db rid choice now := by
            simp only [runOp, hfg, hc]
            simp
          refine ⟨?_, ?_⟩ <;> rw [hrun]
          · exact claim2_conj2_update hN hfg
              (fun g => { g with status := respStatus choice, responseDate := some now })
              (fun x => rfl) (by rw [hc]; cases choice <;> rfl)
          · exact claim2_conj3_update
              (fun g => { g with status := respStatus choice, responseDate := some now })
              (fun x => rfl)
        · have hcf : (gf.status == GrantStatus.pending) = false := by simpa using hc
          exact frame _ (by simp [runOp, hfg, hcf])
  | revoke rid now out =>
    cases out with
    | fail => exact frame _ (by simp [runOp])
    | ok =>
      rcases hfg : findGrant db rid with _ | gf
      · exact frame _ (by simp [runOp, hfg])
      · by_cases hc : gf.status = GrantStatus.approved
        · have hrun : runOp db (Op.revoke rid now WriteOutcome.ok) =
              handleRevokeAccess db rid now := by
            simp only [runOp, hfg, hc]
            simp
          refine ⟨?_, ?_⟩ <;> rw [hrun]
          · exact claim2_conj2_update hN hfg
              (fun g => { g with status := GrantStatus.revoked, revokedDate := some now })
              (fun x => rfl) (by rw [hc]; rfl)
          · exact claim2_conj3_update
              (fun g => { g with status := GrantStatus.revoked, revokedDate := some now })
              (fun x => rfl)
        · have hcf : (gf.status == GrantStatus.approved) = false := by simpa using hc
          exact frame _ (by simp [runOp, hfg, hcf])

/-- Witness for C2: approving the sample pending request is the allowed
pending-to-approved transition. -/
theorem claim2_witness :
    allowedStatusStep baseGrant.status respondedGrant.status = true :=
  (claim2_transitions dbPending (Op.respond 2 ResponseChoice.approve 9 WriteOutcome.ok)
      (by constructor <;> decide)).2.1
    baseGrant (by decide) respondedGrant (by decide) (by decide)

lemma onSubmitUpload_ok_some_proj (db : DB) (a : String) (sid : Nat) (cn idate : String)
    (file : UploadFile) (uuid : String) (now : Nat) (st : StudentRecord)
    (hfs : db.students.find? (fun s => s.id == sid) = some st) :
    (onSubmitUpload db a sid cn idate file uuid now UploadOutcome.ok).users = db.users ∧
    (onSubmitUpload db a sid cn idate file uuid now UploadOutcome.ok).students = db.students ∧
    (onSubmitUpload db a sid cn idate file uuid now UploadOutcome.ok).grants = db.grants ∧
    (onSubmitUpload db a sid cn idate file uuid now UploadOutcome.ok).storage =
      db.storage ++ [(storagePath a sid uuid (fileExtension file.name), file.bytes)] ∧
    ∃ c, (onSubmitUpload db a sid cn idate file uuid now UploadOutcome.ok).certificates =
      db.certificates ++ [c] := by
  unfold onSubmitUpload
  rw [hfs]
  exact ⟨rfl, rfl, rfl, rfl, _, rfl⟩

lemma onSubmitUpload_ok_none_proj (db : DB) (a : String) (sid : Nat) (cn idate : String)
    (file : UploadFile) (uuid : String) (now : Nat)
    (hfs : db.students.find? (fun s => s.id == sid) = none) :
    (onSubmitUpload db a sid cn idate file uuid now UploadOutcome.ok).users = db.users ∧
    (onSubmitUpload db a sid cn idate file uuid now UploadOutcome.ok).students = db.students ∧
    (onSubmitUpload db a sid cn idate file uuid now UploadOutcome.ok).grants = db.grants ∧
    (onSubmitUpload db a sid cn idate file uuid now UploadOutcome.ok).storage =
      db.storage ++ [(storagePath a sid uuid (fileExtension file.name), file.bytes)] ∧
    (onSubmitUpload db a sid cn idate file uuid now UploadOutcome.ok).certificates =
      db.certificates := by
  unfold onSubmitUpload
  rw [hfs]
  exact ⟨rfl, rfl, rfl, rfl, rfl⟩

lemma onSendRequest_frame (db : DB) (c ce : String) (sid : Nat) (sn se msg : String)
    (now : Nat) :
    (onSendRequest db c ce sid sn se msg now).1.users = db.users ∧
    (onSendRequest db c ce sid sn se msg now).1.students = db.students ∧
    (onSendRequest db c ce sid sn se msg now).1.certificates = db.certificates ∧
    (onSendRequest db c ce sid sn se msg now).1.storage = db.storage := by
  unfold onSendRequest
  split <;> exact ⟨rfl, rfl, rfl, rfl⟩

/-- C5 as stated is false: a successful certificate upload performs two
persistent writes in one operation (the file bytes into the object store
and the certificate record into the document store), and when the record
write fails after the file write, the persisted state differs from the
state before the failed operation by the orphaned stored file. -/
theorem claim5_counterexample :
    ((runOp dbNoGrants (Op.upload "school1" 1 "Degree2" "2024-07-01" sampleFile "uuid-a" 40
        UploadOutcome.ok)).storage.length = dbNoGrants.storage.length + 1 ∧
     (runOp dbNoGrants (Op.upload "school1" 1 "Degree2" "2024-07-01" sampleFile "uuid-a" 40
        UploadOutcome.ok)).certificates.length = dbNoGrants.certificates.length + 1) ∧
    (runOp dbNoGrants (Op.upload "school1" 1 "Degree2" "2024-07-01" sampleFile "uuid-a" 40
        UploadOutcome.recordWriteFailed)).storage ≠ dbNoGrants.storage := by
  refine ⟨⟨?_, ?_⟩, by decide⟩
  · simp [runOp, onSubmitUpload, dbNoGrants, sampleStudent]
  · simp [runOp, onSubmitUpload, dbNoGrants, sampleStudent]

/-- C5 amended: every user-triggered operation performs at most one
document create or update, and a remote-call failure leaves every
document collection unchanged; the certificate upload, however, also
performs one object-store write before its record write, so that write
can persist (an orphaned file) when the subsequent record write fails. -/
theorem claim5_single_write_amended (db : DB) (op : Op) :
    (runOp db op).users = db.users ∧
    ((runOp db op).storage = db.storage ∨
      ∃ e, (runOp db op).storage = db.storage ++ [e]) ∧
    ((runOp db op).students = db.students ∨
      ∃ s, (runOp db op).students = db.students ++ [s]) ∧
    ((runOp db op).certificates = db.certificates ∨
      ∃ c, (runOp db op).certificates = db.certificates ++ [c]) ∧
    ((runOp db op).grants = db.grants ∨
      (∃ g, (runOp db op).grants = db.grants ++ [g]) ∨
      ∃ (rid : Nat) (f : AccessGrant → AccessGrant), (runOp db op).grants =
        db.grants.map fun g => if g.id == rid then f g else g) ∧
    ((runOp db op).students ≠ db.students →
      (runOp db op).certificates = db.certificates ∧ (runOp db op).grants = db.grants) ∧
    ((runOp db op).certificates ≠ db.certificates →
      (runOp db op).students = db.students ∧ (runOp db op).grants = db.grants) ∧
    ((runOp db op).grants ≠ db.grants →
      (runOp db op).students = db.students ∧
      (runOp db op).certificates = db.certificates) ∧
    (opFailed op = true →
      (runOp db op).students = db.students ∧
      (runOp db op).certificates = db.certificates ∧
      (runOp db op).grants = db.grants) := by
  cases op with
  | enroll a b c d e f now out =>
    cases out with
    | fail =>
      exact ⟨rfl, Or.inl rfl, Or.inl rfl, Or.inl rfl, Or.inl rfl,
        fun h => absurd rfl h, fun h => absurd rfl h, fun h => absurd rfl h,
        fun _ => ⟨rfl, rfl, rfl⟩⟩
    | ok =>
      exact ⟨rfl, Or.inl rfl, Or.inr ⟨_, rfl⟩, Or.inl rfl, Or.inl rfl,
        fun _ => ⟨rfl, rfl⟩, fun h => absurd rfl h, fun h => absurd rfl h,
        fun h => by simp [opFailed] at h⟩
  | upload a sid cn idate file uuid now out =>
    cases out with
    | storageFailed =>
      exact ⟨rfl, Or.inl rfl, Or.inl rfl, Or.inl rfl, Or.inl rfl,
        fun h => absurd rfl h, fun h => absurd rfl h, fun h => absurd rfl h,
        fun _ => ⟨rfl, rfl, rfl⟩⟩
    | recordWriteFailed =>
      exact ⟨rfl, Or.inr ⟨_, rfl⟩, Or.inl rfl, Or.inl rfl, Or.inl rfl,
        fun h => absurd rfl h, fun h => absurd rfl h, fun h => absurd rfl h,
        fun _ => ⟨rfl, rfl, rfl⟩⟩
    | ok =>
      have hrw : runOp db (Op.upload a sid cn idate file uuid now UploadOutcome.ok) =
          onSubmitUpload db a sid cn idate file uuid now UploadOutcome.ok := rfl
      rw [hrw]
      rcases hfs : db.students.find? (fun s => s.id == sid) with _ | st
      · obtain ⟨h1, h2, h3, h4, h5⟩ :=
          onSubmitUpload_ok_none_proj db a sid cn idate file uuid now hfs
        exact ⟨h1, Or.inr ⟨_, h4⟩, Or.inl h2, Or.inl h5, Or.inl h3,
          fun h => absurd h2 h, fun h => absurd h5 h, fun h => absurd h3 h,
          fun h => by simp [opFailed] at h⟩
      · obtain ⟨h1, h2, h3, h4, c0, h5⟩ :=
          onSubmitUpload_ok_some_proj db a sid cn idate file uuid now st hfs
        exact ⟨h1, Or.inr ⟨_, h4⟩, Or.inl h2, Or.inr ⟨c0, h5⟩, Or.inl h3,
          fun h => absurd h2 h, fun _ => ⟨h2, h3⟩, fun h => absurd h3 h,
          fun h => by simp [opFailed] at h⟩
  | sendRequest c ce sid sn se msg now out =>
    cases out with
    | fail =>
      exact ⟨rfl, Or.inl rfl, Or.inl rfl, Or.inl rfl, Or.inl rfl,
        fun h => absurd rfl h, fun h => absurd rfl h, fun h => absurd rfl h,
        fun _ => ⟨rfl, rfl, rfl⟩⟩
    | ok =>
      obtain ⟨hu, hs, hc, hst⟩ := onSendRequest_frame db c ce sid sn se msg now
      have hgr : (runOp db (Op.sendRequest c ce sid sn se msg now WriteOutcome.ok)).grants =
            (onSendRequest db c ce sid sn se msg now).1.grants := by
        simp only [runOp]
      rcases onSendRequest_shape db c ce sid sn se msg now with hsame | ⟨new, _, _, happ⟩
      · refine ⟨hu, Or.inl hst, Or.inl hs, Or.inl hc, Or.inl (hgr.trans hsame), ?_, ?_, ?_, ?_⟩
        · exact fun h => absurd hs h
        · exact fun h => absurd hc h
        · exact fun _ => ⟨hs, hc⟩
        · exact fun h => by simp [opFailed] at h
      · refine ⟨hu, Or.inl hst, Or.inl hs, Or.inl hc,
          Or.inr (Or.inl ⟨new, hgr.trans happ⟩), ?_, ?_, ?_, ?_⟩
        · exact fun h => absurd hs h
        · exact fun h => absurd hc h
        · exact fun _ => ⟨hs, hc⟩
        · exact fun h => by simp [opFailed] at h
  | respond rid choice now out =>
    cases out with
    | fail =>
      exact ⟨rfl, Or.inl rfl, Or.inl rfl, Or.inl rfl, Or.inl rfl,
        fun h => absurd rfl h, fun h => absurd rfl h, fun h => absurd rfl h,
        fun _ => ⟨rfl, rfl, rfl⟩⟩
    | ok =>
      rcases hfg : findGrant db rid with _ | gf
      · have hrun : runOp db (Op.respond rid choice now WriteOutcome.ok) = db := by
          simp [runOp, hfg]
        rw [hrun]
        exact ⟨rfl, Or.inl rfl, Or.inl rfl, Or.inl rfl, Or.inl rfl,
          fun h => absurd rfl h, fun h => absurd rfl h, fun h => absurd rfl h,
          fun h => by simp [opFailed] at h⟩
      · by_cases hcnd : gf.status = GrantStatus.pending
        · have hrun : runOp db (Op.respond rid choice now WriteOutcome.ok) =
              handleRequestResponse db rid choice now := by
            simp only [runOp, hfg, hcnd]
            simp
          rw [hrun]
          unfold handleRequestResponse updateGrant
          exact ⟨rfl, Or.inl rfl, Or.inl rfl, Or.inl rfl, Or.inr (Or.inr ⟨rid, _, rfl⟩),
            fun h => absurd rfl h, fun h => absurd rfl h, fun _ => ⟨rfl, rfl⟩,
            fun h => by simp [opFailed] at h⟩
        · have hcf : (gf.status == GrantStatus.pending) = false := by simpa using hcnd
          have hrun : runOp db (Op.respond rid choice now WriteOutcome.ok) = db := by
            simp [runOp, hfg, hcf]
          rw [hrun]
          exact ⟨rfl, Or.inl rfl, Or.inl rfl, Or.inl rfl, Or.inl rfl,
            fun h => absurd rfl h, fun h => absurd rfl h, fun h => absurd rfl h,
            fun h => by simp [opFailed] at h⟩
  | revoke rid now out =>
    cases out with
    | fail =>
      exact ⟨rfl, Or.inl rfl, Or.inl rfl, Or.inl rfl, Or.inl rfl,
        fun h => absurd rfl h, fun h => absurd rfl h, fun h => absurd rfl h,
        fun _ => ⟨rfl, rfl, rfl⟩⟩
    | ok =>
      rcases hfg : findGrant db rid with _ | gf
      · have hrun : runOp db (Op.revoke rid now WriteOutcome.ok) = db := by
          simp [runOp, hfg]
        rw [hrun]
        exact ⟨rfl, Or.inl rfl, Or.inl rfl, Or.inl rfl, Or.inl rfl,
          fun h => absurd rfl h, fun h => absurd rfl h, fun h => absurd rfl h,
          fun h => by simp [opFailed] at h⟩
      · by_cases hcnd : gf.status = GrantStatus.approved
        · have hrun : runOp db (Op.revoke rid now WriteOutcome.ok) =
              handleRevokeAccess db rid now := by
            simp only [runOp, hfg, hcnd]
            simp
          rw [hrun]
          unfold handleRevokeAccess updateGrant
          exact ⟨rfl, Or.inl rfl, Or.inl rfl, Or.inl rfl, Or.inr (Or.inr ⟨rid, _, rfl⟩),
            fun h => absurd rfl h, fun h => absurd rfl h, fun _ => ⟨rfl, rfl⟩,
            fun h => by simp [opFailed] at h⟩
        · have hcf : (gf.status == GrantStatus.approved) = false := by simpa using hcnd
          have hrun : runOp db (Op.revoke rid now WriteOutcome.ok) = db := by
            simp [runOp, hfg, hcf]
          rw [hrun]
          exact ⟨rfl, Or.inl rfl, Or.inl rfl, Or.inl rfl, Or.inl rfl,
            fun h => absurd rfl h, fun h => absurd rfl h, fun h => absurd rfl h,
            fun h => by simp [opFailed] at h⟩

/-- Witness for the amended C5: a failed respond write leaves every
document collection of the sample store unchanged. -/
theorem claim5_witness :
    (runOp dbPending (Op.respond 2 ResponseChoice.approve 9 WriteOutcome.fail)).students =
      dbPending.students ∧
    (runOp dbPending (Op.respond 2 ResponseChoice.approve 9 WriteOutcome.fail)).certificates =
      dbPending.certificates ∧
    (runOp dbPending (Op.respond 2 ResponseChoice.approve 9 WriteOutcome.fail)).grants =
      dbPending.grants :=
  (claim5_single_write_amended dbPending
      (Op.respond 2 ResponseChoice.approve 9 WriteOutcome.fail)).2.2.2.2.2.2.2.2 (by decide)

lemma length_sha256Round (st : List Nat) (kw : Nat × Nat) (h : st.length = 8) :
    (sha256Round st kw).length = 8 := by
  unfold sha256Round
  split
  · rfl
  · exact h

lemma length_foldl_rounds (l : List (Nat × Nat)) (st : List Nat) (h : st.length = 8) :
    (l.foldl sha256Round st).length = 8 := by
  induction l generalizing st with
  | nil => exact h
  | cons a l ih => exact ih _ (length_sha256Round st a h)

lemma length_compressBlock (h b : List Nat) (hh : h.length = 8) :
    (compressBlock h b).length = 8 := by
  unfold compressBlock
  rw [List.length_map, List.length_zip, length_foldl_rounds _ _ hh, hh]
  simp

lemma length_sha256Words (msg : List Nat) : (sha256Words msg).length = 8 := by
  unfold sha256Words
  have key : ∀ (bs : List (List Nat)) (h : List Nat), h.length = 8 →
      (bs.foldl (fun h b => compressBlock h (toWords b)) h).length = 8 := by
    intro bs
    induction bs with
    | nil => exact fun h hh => hh
    | cons b bs ih => exact fun h hh => ih _ (length_compressBlock _ _ hh)
  exact key _ _ rfl

lemma sha256Bytes_lt (msg : List Nat) : ∀ b ∈ sha256Bytes msg, b < 256 := by
  intro b hb
  unfold sha256Bytes at hb
  rcases List.mem_flatten.mp hb with ⟨l, hl, hbl⟩
  rcases List.mem_map.mp hl with ⟨w, _, hw⟩
  rw [← hw] at hbl
  unfold wordBytes at hbl
  rcases (by simpa using hbl :
      b = w >>> 24 % 256 ∨ b = w >>> 16 % 256 ∨ b = w >>> 8 % 256 ∨ b = w % 256) with
    h | h | h | h <;> omega

lemma length_flatten_wordBytes (ws : List Nat) :
    ((ws.map wordBytes).flatten).length = 4 * ws.length := by
  induction ws with
  | nil => rfl
  | cons w ws ih =>
    simp only [List.map_cons, List.flatten_cons, List.length_append, ih, wordBytes]
    simp
    omega

lemma length_flatten_hexByte (bs : List Nat) :
    ((bs.map hexByte).flatten).length = 2 * bs.length := by
  induction bs with
  | nil => rfl
  | cons b bs ih =>
    simp only [List.map_cons, List.flatten_cons, List.length_append, ih, hexByte]
    simp
    omega

lemma generateFileHash_length (bytes : List Nat) : (generateFileHash bytes).length = 64 := by
  unfold generateFileHash
  rw [show ∀ l : List Char, (String.mk l).length = l.length from fun l => rfl]
  rw [length_flatten_hexByte]
  have h32 : (sha256Bytes bytes).length = 32 := by
    unfold sha256Bytes
    rw [length_flatten_wordBytes, length_sha256Words]
  rw [h32]

lemma digitChar_mem_hexChars {n : Nat} (h : n < 16) : Nat.digitChar n ∈ hexChars := by
  have key : ∀ m, m < 16 → Nat.digitChar m ∈ hexChars := by decide
  exact key n h

lemma generateFileHash_hex (bytes : List Nat) :
    ∀ c ∈ (generateFileHash bytes).data, c ∈ hexChars := by
  intro c hc
  have hc' : c ∈ ((sha256Bytes bytes).map hexByte).flatten := hc
  rcases List.mem_flatten.mp hc' with ⟨l, hl, hcl⟩
  rcases List.mem_map.mp hl with ⟨b, hb, hbl⟩
  have hblt : b < 256 := sha256Bytes_lt bytes b hb
  rw [← hbl] at hcl
  unfold hexByte at hcl
  rcases (by simpa using hcl : c = Nat.digitChar (b / 16) ∨ c = Nat.digitChar (b % 16)) with
    h | h
  · exact h ▸ digitChar_mem_hexChars (by omega)
  · exact h ▸ digitChar_mem_hexChars (by omega)

lemma string_data_inj {s t : String} (h : s.data = t.data) : s = t := by
  cases s
  cases t
  exact congrArg String.mk h

lemma storagePath_uuid_ne (a : String) (sid : Nat) (e : String) {u v : String} (h : u ≠ v) :
    storagePath a sid u e ≠ storagePath a sid v e := by
  intro he
  have hd : (storagePath a sid u e).data = (storagePath a sid v e).data := by rw [he]
  unfold storagePath at hd
  simp only [String.data_append, List.append_assoc] at hd
  have h1 := List.append_cancel_left hd
  have h2 := List.append_cancel_left h1
  have h3 := List.append_cancel_left h2
  have h4 := List.append_cancel_left h3
  have h5 := List.append_cancel_left h4
  exact h (string_data_inj (List.append_cancel_right h5))

lemma getDownloadURL_ne {p q : String} (h : p ≠ q) : getDownloadURL p ≠ getDownloadURL q := by
  intro he
  have hd : (getDownloadURL p).data = (getDownloadURL q).data := by rw [he]
  unfold getDownloadURL at hd
  simp only [String.data_append] at hd
  exact h (string_data_inj (List.append_cancel_left hd))

lemma onSubmitUpload_ok_some_eq (db : DB) (a : String) (sid : Nat) (cn idate : String)
    (file : UploadFile) (uuid : String) (now : Nat) (st : StudentRecord)
    (hfs : db.students.find? (fun s => s.id == sid) = some st) :
    onSubmitUpload db a sid cn idate file uuid now UploadOutcome.ok =
      { users := db.users
        students := db.students
        certificates := db.certificates ++ [issuedCert db.nextDocId a sid cn idate file uuid now st]
        grants := db.grants
        storage := db.storage ++ [(storagePath a sid uuid (fileExtension file.name), file.bytes)]
        nextDocId := db.nextDocId + 1 } := by
  unfold onSubmitUpload
  rw [hfs]
  rfl

/-- C7: a successful upload computes the content digest by SHA-256 over
the exact original file bytes (a fixed-length, 64-character lowercase
hexadecimal string), stores the bytes at the path scoped by the school
uid, the student document id and the per-upload uuid suffix, and writes
exactly one Certificate record carrying that location and that digest. -/
theorem claim7_issuance (db : DB) (schoolUid : String) (sid : Nat) (cn idate : String)
    (file : UploadFile) (uuid : String) (now : Nat) (st : StudentRecord)
    (hst : db.students.find? (fun s => s.id == sid) = some st) :
    (runOp db (Op.upload schoolUid sid cn idate file uuid now UploadOutcome.ok)).certificates =
      db.certificates ++ [issuedCert db.nextDocId schoolUid sid cn idate file uuid now st] ∧
    (issuedCert db.nextDocId schoolUid sid cn idate file uuid now st).fileHash =
      generateFileHash file.bytes ∧
    (issuedCert db.nextDocId schoolUid sid cn idate file uuid now st).fileURL =
      getDownloadURL (storagePath schoolUid sid uuid (fileExtension file.name)) ∧
    (runOp db (Op.upload schoolUid sid cn idate file uuid now UploadOutcome.ok)).storage =
      db.storage ++ [(storagePath schoolUid sid uuid (fileExtension file.name), file.bytes)] ∧
    (generateFileHash file.bytes).length = 64 ∧
    (∀ c ∈ (generateFileHash file.bytes).data, c ∈ hexChars) := by
  have hrw : runOp db (Op.upload schoolUid sid cn idate file uuid now UploadOutcome.ok) =
      onSubmitUpload db schoolUid sid cn idate file uuid now UploadOutcome.ok := rfl
  rw [hrw, onSubmitUpload_ok_some_eq db schoolUid sid cn idate file uuid now st hst]
  exact ⟨rfl, rfl, rfl, rfl, generateFileHash_length _, generateFileHash_hex _⟩

/-- Witness for C7 at the sample store: uploading the sample file for
student 1 appends exactly the issued record and the stored bytes. -/
theorem claim7_witness :
    (runOp dbNoGrants (Op.upload "school1" 1 "Diploma" "2024-07-01" sampleFile "uid-a" 40
        UploadOutcome.ok)).certificates =
      dbNoGrants.certificates ++
        [issuedCert dbNoGrants.nextDocId "school1" 1 "Diploma" "2024-07-01" sampleFile "uid-a"
          40 sampleStudent] ∧
    (issuedCert dbNoGrants.nextDocId "school1" 1 "Diploma" "2024-07-01" sampleFile "uid-a" 40
        sampleStudent).fileHash = generateFileHash sampleFile.bytes ∧
    (issuedCert dbNoGrants.nextDocId "school1" 1 "Diploma" "2024-07-01" sampleFile "uid-a" 40
        sampleStudent).fileURL =
      getDownloadURL (storagePath "school1" 1 "uid-a" (fileExtension sampleFile.name)) ∧
    (runOp dbNoGrants (Op.upload "school1" 1 "Diploma" "2024-07-01" sampleFile "uid-a" 40
        UploadOutcome.ok)).storage =
      dbNoGrants.storage ++
        [(storagePath "school1" 1 "uid-a" (fileExtension sampleFile.name), sampleFile.bytes)] ∧
    (generateFileHash sampleFile.bytes).length = 64 ∧
    (∀ c ∈ (generateFileHash sampleFile.bytes).data, c ∈ hexChars) :=
  claim7_issuance dbNoGrants "school1" 1 "Diploma" "2024-07-01" sampleFile "uid-a" 40
    sampleStudent (by decide)

/-- C8: re-uploading byte-identical files for the same student yields two
Certificate records with different document ids, different storage
locations (the uuid suffix is fresh per upload), and equal fileDigest
values, because the digest is a function of the bytes alone and no
deduplication happens anywhere on the path. -/
theorem claim8_reupload (db : DB) (schoolUid : String) (sid : Nat) (cn idate : String)
    (file : UploadFile) (uuid1 uuid2 : String) (now1 now2 : Nat) (st : StudentRecord)
    (hst : db.students.find? (fun s => s.id == sid) = some st)
    (huuid : uuid1 ≠ uuid2) :
    (runOp (runOp db (Op.upload schoolUid sid cn idate file uuid1 now1 UploadOutcome.ok))
        (Op.upload schoolUid sid cn idate file uuid2 now2 UploadOutcome.ok)).certificates =
      db.certificates ++
        [issuedCert db.nextDocId schoolUid sid cn idate file uuid1 now1 st,
         issuedCert (db.nextDocId + 1) schoolUid sid cn idate file uuid2 now2 st] ∧
    (issuedCert db.nextDocId schoolUid sid cn idate file uuid1 now1 st).id ≠
      (issuedCert (db.nextDocId + 1) schoolUid sid cn idate file uuid2 now2 st).id ∧
    (issuedCert db.nextDocId schoolUid sid cn idate file uuid1 now1 st).fileURL ≠
      (issuedCert (db.nextDocId + 1) schoolUid sid cn idate file uuid2 now2 st).fileURL ∧
    (issuedCert db.nextDocId schoolUid sid cn idate file uuid1 now1 st).fileHash =
      (issuedCert (db.nextDocId + 1) schoolUid sid cn idate file uuid2 now2 st).fileHash := by
  have h1 := onSubmitUpload_ok_some_eq db schoolUid sid cn idate file uuid1 now1 st hst
  have hrw1 : runOp db (Op.upload schoolUid sid cn idate file uuid1 now1 UploadOutcome.ok) =
      onSubmitUpload db schoolUid sid cn idate file uuid1 now1 UploadOutcome.ok := rfl
  have hst1 : (onSubmitUpload db schoolUid sid cn idate file uuid1 now1
      UploadOutcome.ok).students.find? (fun s => s.id == sid) = some st := by
    rw [h1]
    exact hst
  have h2 := onSubmitUpload_ok_some_eq
    (onSubmitUpload db schoolUid sid cn idate file uuid1 now1 UploadOutcome.ok)
    schoolUid sid cn idate file uuid2 now2 st hst1
  refine ⟨?_, by simp [issuedCert], ?_, rfl⟩
  · have hrw2 : runOp
        (runOp db (Op.upload schoolUid sid cn idate file uuid1 now1 UploadOutcome.ok))
        (Op.upload schoolUid sid cn idate file uuid2 now2 UploadOutcome.ok) =
        onSubmitUpload
          (onSubmitUpload db schoolUid sid cn idate file uuid1 now1 UploadOutcome.ok)
          schoolUid sid cn idate file uuid2 now2 UploadOutcome.ok := rfl
    rw [hrw2, h2, h1]
    simp
  · have hpath : storagePath schoolUid sid uuid1 (fileExtension file.name) ≠
        storagePath schoolUid sid uuid2 (fileExtension file.name) :=
      storagePath_uuid_ne schoolUid sid (fileExtension file.name) huuid
    exact getDownloadURL_ne hpath

/-- Witness for C8 at the sample store: two uploads of the sample file for
student 1 with distinct uuids append two records with distinct ids,
distinct locations and the same digest. -/
theorem claim8_witness :
    (runOp (runOp dbNoGrants (Op.upload "school1" 1 "Diploma" "2024-07-01" sampleFile "uid-a"
        40 UploadOutcome.ok))
        (Op.upload "school1" 1 "Diploma" "2024-07-01" sampleFile "uid-b" 41
          UploadOutcome.ok)).certificates =
      dbNoGrants.certificates ++
        [issuedCert dbNoGrants.nextDocId "school1" 1 "Diploma" "2024-07-01" sampleFile "uid-a"
          40 sampleStudent,
         issuedCert (dbNoGrants.nextDocId + 1) "school1" 1 "Diploma" "2024-07-01" sampleFile
          "uid-b" 41 sampleStudent] ∧
    (issuedCert dbNoGrants.nextDocId "school1" 1 "Diploma" "2024-07-01" sampleFile "uid-a" 40
        sampleStudent).id ≠
      (issuedCert (dbNoGrants.nextDocId + 1) "school1" 1 "Diploma" "2024-07-01" sampleFile
        "uid-b" 41 sampleStudent).id ∧
    (issuedCert dbNoGrants.nextDocId "school1" 1 "Diploma" "2024-07-01" sampleFile "uid-a" 40
        sampleStudent).fileURL ≠
      (issuedCert (dbNoGrants.nextDocId + 1) "school1" 1 "Diploma" "2024-07-01" sampleFile
        "uid-b" 41 sampleStudent).fileURL ∧
    (issuedCert dbNoGrants.nextDocId "school1" 1 "Diploma" "2024-07-01" sampleFile "uid-a" 40
        sampleStudent).fileHash =
      (issuedCert (dbNoGrants.nextDocId + 1) "school1" 1 "Diploma" "2024-07-01" sampleFile
        "uid-b" 41 sampleStudent).fileHash :=
  claim8_reupload dbNoGrants "school1" 1 "Diploma" "2024-07-01" sampleFile "uid-a" "uid-b" 40
    41 sampleStudent (by decide) (by decide)

end StudentCredentials
